import Mathlib

/-!
# Bitmap reconstruction from a CZI sub-block

A shallow embedding of `Src/libCZI/CreateBitmap.cpp`: the dispatcher
`libCZI::CreateBitmapFromSubBlock` and its four static helpers
(`_JpgXr`, `_ZStd0`, `_ZStd1`, `_Uncompressed`).

Conventions of the embedding.

* Machine integers are natural numbers; a 32-bit product is taken `% UINT32_MOD`
  and a `size_t` product `% SIZE_MOD` (a 64-bit `size_t`).
* A call returns a `Run`: what the call produced (a bitmap or a thrown C++
  exception) and the list of externally visible events it performed, in order
  (collaborator calls and byte reads through the raw payload pointer).
* Everything the translation unit uses without defining it (the pixel-format
  tables of `CziUtils`, the decoders behind `GetSite()`, the byte-order
  conversion, the host byte-order flag) is a field of `Context`.
-/

namespace libCZI

/-! ## Data model -/

/-- Modulus of `std::uint32_t` arithmetic. -/
def UINT32_MOD : Nat := 2 ^ 32

/-- Modulus of `size_t` arithmetic (64-bit target). -/
def SIZE_MOD : Nat := 2 ^ 64

/-- Tag of the `PixelType` enumeration. The enumeration is declared outside this
translation unit; only its tag value is kept. -/
abbrev PixelType := Nat

/-- The enumerators of `CompressionMode` that the dispatcher names, and `other` for
every remaining value of the tag (the `default:` label of the switch). -/
inductive CompressionMode where
  | UnCompressed
  | JpgXr
  | Zstd0
  | Zstd1
  | other (tag : Nat)
  deriving DecidableEq, Repr

/-- The decoder kinds this translation unit requests from the site. -/
inductive ImageDecoderType where
  | JPXR_JxrLib
  | ZStd0
  | ZStd1
  deriving DecidableEq, Repr

/-- A pair of `std::uint32_t` extents (`physicalSize`). -/
structure IntSize where
  w : Nat
  h : Nat
  deriving DecidableEq, Repr

/-- The part of `SubBlockInfo` read by this translation unit. -/
structure SubBlockInfo where
  mode : CompressionMode
  pixelType : PixelType
  physicalSize : IntSize
  deriving DecidableEq, Repr

/-- Accessor `SubBlockInfo::GetCompressionMode`. -/
def SubBlockInfo.GetCompressionMode (info : SubBlockInfo) : CompressionMode := info.mode

/-- An `ISubBlock` as this translation unit sees it: its info record and its raw
`Data` memory block. `data` holds the payload bytes (the block's size is
`data.length`); `beyond k` is the byte the address space holds `k` positions
past the last payload byte, which is what a read through the raw pointer at
index `data.length + k` observes. -/
structure ISubBlock where
  info : SubBlockInfo
  data : List Nat
  beyond : Nat → Nat

/-- Accessor `ISubBlock::GetSubBlockInfo`. -/
def ISubBlock.GetSubBlockInfo (subBlk : ISubBlock) : SubBlockInfo := subBlk.info

/-- Size reported by `GetRawData` / `DangerousGetRawData` for the `Data` block. -/
def ISubBlock.size (subBlk : ISubBlock) : Nat := subBlk.data.length

/-- Dereference of the raw pointer handed out by `DangerousGetRawData` at byte
offset `i`. -/
def ISubBlock.ptr (subBlk : ISubBlock) (i : Nat) : Nat :=
  match subBlk.data[i]? with
  | some b => b
  | none => subBlk.beyond (i - subBlk.data.length)

/-- Inputs the C++ types admit: extents are `std::uint32_t`, the payload size is a
`size_t`. -/
def ISubBlock.WellFormed (subBlk : ISubBlock) : Prop :=
  subBlk.info.physicalSize.w < UINT32_MOD ∧ subBlk.info.physicalSize.h < UINT32_MOD ∧
    subBlk.data.length < SIZE_MOD

/-- A bitmap (`IBitmapData`): pixel type, extents, stride and the byte buffer it
views. -/
structure BitmapData where
  pixelType : PixelType
  width : Nat
  height : Nat
  stride : Nat
  data : List Nat
  deriving DecidableEq, Repr

/-- A thrown C++ exception: its dynamic type and its `what()` text. -/
structure Exception where
  type : String
  what : String
  deriving DecidableEq, Repr

/-- What a call produces: a bitmap returned to the caller or an exception thrown
to it. -/
inductive Outcome where
  | returned (bitmap : BitmapData)
  | thrown (e : Exception)
  deriving DecidableEq, Repr

/-- Externally visible steps of a call, in program order. -/
inductive Event where
  | GetDecoder (type : ImageDecoderType)
  | DangerousGetRawData
  | GetRawData
  | read (index : Nat)
  | Decode (type : ImageDecoderType) (data : List Nat) (size : Nat) (pixelType : PixelType)
      (w h : Nat)
  | Create (pixelType : PixelType) (w h stride : Nat)
  | ConvertToBigEndian (source : BitmapData)
  deriving DecidableEq, Repr

/-- Result of running one of the functions: the events performed and the outcome. -/
structure Run where
  trace : List Event
  result : Outcome
  deriving DecidableEq, Repr

/-- Collaborators and build configuration the translation unit depends on.
`GetBytesPerPel` and `IsPixelTypeEndianessAgnostic` are the `CziUtils` tables,
`Decode t` is `GetSite()->GetDecoder(t, nullptr)->Decode`, `ConvertToBigEndian`
is `CBitmapOperations::ConvertToBigEndian`, and `LIBCZI_ISBIGENDIANHOST` is the
configuration flag of the same name. -/
structure Context where
  GetBytesPerPel : PixelType → Nat
  IsPixelTypeEndianessAgnostic : PixelType → Bool
  Decode : ImageDecoderType → List Nat → Nat → PixelType → Nat → Nat → Outcome
  ConvertToBigEndian : BitmapData → BitmapData
  LIBCZI_ISBIGENDIANHOST : Bool

/-- Modelled from the spec: `CBitmapData<CSharedPtrAllocator>::Create` is defined
outside this translation unit; following the spec (a Bitmap constructed directly
over the payload bytes with the given pixel type, width, height and stride) the
bitmap views the buffer held by the allocator. -/
def CBitmapData.Create (sharedPtrAllocator : List Nat) (pixeltype : PixelType)
    (width height pitch : Nat) : BitmapData :=
  { pixelType := pixeltype, width := width, height := height, stride := pitch,
    data := sharedPtrAllocator }

/-- The exception of line 74, `std::logic_error("insufficient size of subblock")`. -/
def InsufficientData : Exception :=
  { type := "std::logic_error", what := "insufficient size of subblock" }

/-- The exception of line 107,
`std::logic_error("The method or operation is not implemented.")`. -/
def UnsupportedCompressionMode : Exception :=
  { type := "std::logic_error", what := "The method or operation is not implemented." }

/-! ## `memcmp` -/

/-- Bytewise `memcmp(lhs, rhs, count)` starting at offset `i`: the comparison
result together with the offsets of `lhs` that were read. A byte is read only
when all bytes before it compared equal, the least any implementation reads. -/
def memcmpFrom (lhs rhs : Nat → Nat) (i : Nat) : Nat → Int × List Nat
  | 0 => (0, [])
  | count + 1 =>
    if lhs i = rhs i then
      let r := memcmpFrom lhs rhs (i + 1) count
      (r.1, i :: r.2)
    else
      ((lhs i : Int) - (rhs i : Int), [i])

/-- The call `memcmp(lhs, rhs, count)`. -/
def memcmp (lhs rhs : Nat → Nat) (count : Nat) : Int × List Nat :=
  memcmpFrom lhs rhs 0 count

/-- The array `jpgxr_header_magic` of line 32. -/
def jpgxr_header_magic : List Nat := [0x49, 0x49, 0xbc, 0x01]

/-! ## The functions of `CreateBitmap.cpp` -/

/-- Lines 63-92. -/
def CreateBitmapFromSubBlock_Uncompressed (ctx : Context) (subBlk : ISubBlock) : Run :=
  let size := subBlk.size
  let sharedPtrAllocator := subBlk.data
  let sbBlkInfo := subBlk.GetSubBlockInfo
  let stride := (sbBlkInfo.physicalSize.w * ctx.GetBytesPerPel sbBlkInfo.pixelType) % UINT32_MOD
  if (stride * sbBlkInfo.physicalSize.h) % SIZE_MOD > size then
    { trace := [Event.GetRawData], result := Outcome.thrown InsufficientData }
  else
    let sb := CBitmapData.Create sharedPtrAllocator sbBlkInfo.pixelType
      sbBlkInfo.physicalSize.w sbBlkInfo.physicalSize.h stride
    let created := Event.Create sbBlkInfo.pixelType sbBlkInfo.physicalSize.w
      sbBlkInfo.physicalSize.h stride
    if ctx.LIBCZI_ISBIGENDIANHOST &&
        !ctx.IsPixelTypeEndianessAgnostic subBlk.GetSubBlockInfo.pixelType then
      { trace := [Event.GetRawData, created, Event.ConvertToBigEndian sb],
        result := Outcome.returned (ctx.ConvertToBigEndian sb) }
    else
      { trace := [Event.GetRawData, created], result := Outcome.returned sb }

/-- Lines 17-42. -/
def CreateBitmapFromSubBlock_JpgXr (ctx : Context) (subBlk : ISubBlock) : Run :=
  let dec := ctx.Decode ImageDecoderType.JPXR_JxrLib
  let size := subBlk.size
  let cmp := memcmp subBlk.ptr (fun i => jpgxr_header_magic.getD i 0) 4
  let pre := [Event.GetDecoder ImageDecoderType.JPXR_JxrLib, Event.DangerousGetRawData] ++
    cmp.2.map Event.read
  if cmp.1 ≠ 0 ∧
      size = (subBlk.GetSubBlockInfo.physicalSize.h * subBlk.GetSubBlockInfo.physicalSize.w *
        ctx.GetBytesPerPel subBlk.GetSubBlockInfo.pixelType) % SIZE_MOD then
    let r := CreateBitmapFromSubBlock_Uncompressed ctx subBlk
    { trace := pre ++ r.trace, result := r.result }
  else
    let subBlockInfo := subBlk.GetSubBlockInfo
    { trace := pre ++ [Event.Decode ImageDecoderType.JPXR_JxrLib subBlk.data size
        subBlockInfo.pixelType subBlockInfo.physicalSize.w subBlockInfo.physicalSize.h],
      result := dec subBlk.data size subBlockInfo.pixelType subBlockInfo.physicalSize.w
        subBlockInfo.physicalSize.h }

/-- Lines 44-51. -/
def CreateBitmapFromSubBlock_ZStd0 (ctx : Context) (subBlk : ISubBlock) : Run :=
  let dec := ctx.Decode ImageDecoderType.ZStd0
  let size := subBlk.size
  let subBlockInfo := subBlk.GetSubBlockInfo
  { trace := [Event.GetDecoder ImageDecoderType.ZStd0, Event.DangerousGetRawData,
      Event.Decode ImageDecoderType.ZStd0 subBlk.data size subBlockInfo.pixelType
        subBlockInfo.physicalSize.w subBlockInfo.physicalSize.h],
    result := dec subBlk.data size subBlockInfo.pixelType subBlockInfo.physicalSize.w
      subBlockInfo.physicalSize.h }

/-- Lines 53-61. -/
def CreateBitmapFromSubBlock_ZStd1 (ctx : Context) (subBlk : ISubBlock) : Run :=
  let dec := ctx.Decode ImageDecoderType.ZStd1
  let size := subBlk.size
  let subBlockInfo := subBlk.GetSubBlockInfo
  { trace := [Event.GetDecoder ImageDecoderType.ZStd1, Event.DangerousGetRawData,
      Event.Decode ImageDecoderType.ZStd1 subBlk.data size subBlockInfo.pixelType
        subBlockInfo.physicalSize.w subBlockInfo.physicalSize.h],
    result := dec subBlk.data size subBlockInfo.pixelType subBlockInfo.physicalSize.w
      subBlockInfo.physicalSize.h }

/-- Lines 94-109. -/
def CreateBitmapFromSubBlock (ctx : Context) (subBlk : ISubBlock) : Run :=
  match subBlk.GetSubBlockInfo.GetCompressionMode with
  | CompressionMode.JpgXr => CreateBitmapFromSubBlock_JpgXr ctx subBlk
  | CompressionMode.Zstd0 => CreateBitmapFromSubBlock_ZStd0 ctx subBlk
  | CompressionMode.Zstd1 => CreateBitmapFromSubBlock_ZStd1 ctx subBlk
  | CompressionMode.UnCompressed => CreateBitmapFromSubBlock_Uncompressed ctx subBlk
  | _ => { trace := [], result := Outcome.thrown UnsupportedCompressionMode }

/-- The first `n` bytes found at the raw payload pointer. -/
def ISubBlock.firstBytes (subBlk : ISubBlock) (n : Nat) : List Nat :=
  (List.range n).map subBlk.ptr

/-! ## Sample inputs

A sample configuration and sample sub-blocks on which the functions are evaluated. -/

/-- A decoder stand-in: it returns a 1x1 bitmap that records which decoder ran
(tags 100, 101, 102) and views the bytes it was given. -/
def sampleDecode (t : ImageDecoderType) (data : List Nat) (_size : Nat) (_pixelType : PixelType)
    (_w _h : Nat) : Outcome :=
  Outcome.returned
    { pixelType := (match t with
        | ImageDecoderType.JPXR_JxrLib => 100
        | ImageDecoderType.ZStd0 => 101
        | ImageDecoderType.ZStd1 => 102),
      width := 1, height := 1, stride := 1, data := data }

/-- A sample pixel-format table: tag 0 has 1 byte per pixel and is byte-order
agnostic, tag 1 has 2 bytes per pixel, every other tag has 4 bytes per pixel. The
byte-order conversion stand-in reverses the buffer. -/
def sampleContext (bigEndianHost : Bool) : Context :=
  { GetBytesPerPel := fun p => if p = 0 then 1 else if p = 1 then 2 else 4,
    IsPixelTypeEndianessAgnostic := fun p => p == 0,
    Decode := sampleDecode,
    ConvertToBigEndian := fun b => { b with data := b.data.reverse },
    LIBCZI_ISBIGENDIANHOST := bigEndianHost }

/-- A sub-block with the given tag, pixel type, extents and payload; the memory
after the payload holds zero bytes. -/
def sampleSubBlock (mode : CompressionMode) (pixelType : PixelType) (w h : Nat)
    (data : List Nat) : ISubBlock :=
  { info := { mode := mode, pixelType := pixelType, physicalSize := { w := w, h := h } },
    data := data, beyond := fun _ => 0 }

/-- A 3x1 sub-block of pixel type 0 tagged `JpgXr` whose payload is the three bytes
`49 49 BC`; the byte right after the payload in memory is `01`, later bytes are
zero. -/
def truncatedMagicSubBlock : ISubBlock :=
  { info := { mode := CompressionMode.JpgXr, pixelType := 0,
              physicalSize := { w := 3, h := 1 } },
    data := [0x49, 0x49, 0xbc],
    beyond := fun k => if k = 0 then 0x01 else 0 }

/-! ## Auxiliary facts -/

theorem uint32_mod_pos : 0 < UINT32_MOD := by decide

theorem size_mod_pos : 0 < SIZE_MOD := by decide

theorem uint32_mul_lt_size {a b : Nat} (ha : a < UINT32_MOD) (hb : b < UINT32_MOD) :
    a * b < SIZE_MOD := by
  have h : UINT32_MOD * UINT32_MOD = SIZE_MOD := by decide
  calc a * b ≤ a * UINT32_MOD := Nat.mul_le_mul_left a (Nat.le_of_lt hb)
    _ < UINT32_MOD * UINT32_MOD := Nat.mul_lt_mul_of_pos_right ha uint32_mod_pos
    _ = SIZE_MOD := h

/-- The size check of the Uncompressed path never wraps: a 32-bit stride times a
32-bit height fits a `size_t`. -/
theorem stride_mul_mod (x h : Nat) (hh : h < UINT32_MOD) :
    (x % UINT32_MOD * h) % SIZE_MOD = x % UINT32_MOD * h :=
  Nat.mod_eq_of_lt (uint32_mul_lt_size (Nat.mod_lt _ uint32_mod_pos) hh)

/-- Uncompressed path, failing size check. -/
theorem uncompressed_of_gt (ctx : Context) (subBlk : ISubBlock)
    (h : subBlk.data.length <
      ((subBlk.info.physicalSize.w * ctx.GetBytesPerPel subBlk.info.pixelType) % UINT32_MOD *
        subBlk.info.physicalSize.h) % SIZE_MOD) :
    CreateBitmapFromSubBlock_Uncompressed ctx subBlk =
      { trace := [Event.GetRawData], result := Outcome.thrown InsufficientData } := by
  simp only [CreateBitmapFromSubBlock_Uncompressed, ISubBlock.size, ISubBlock.GetSubBlockInfo]
  rw [if_pos h]

/-- Uncompressed path, passing size check, no byte-order conversion. -/
theorem uncompressed_of_le_direct (ctx : Context) (subBlk : ISubBlock)
    (h : ¬ subBlk.data.length <
      ((subBlk.info.physicalSize.w * ctx.GetBytesPerPel subBlk.info.pixelType) % UINT32_MOD *
        subBlk.info.physicalSize.h) % SIZE_MOD)
    (hc : ¬ (ctx.LIBCZI_ISBIGENDIANHOST = true ∧
      ctx.IsPixelTypeEndianessAgnostic subBlk.info.pixelType = false)) :
    CreateBitmapFromSubBlock_Uncompressed ctx subBlk =
      { trace := [Event.GetRawData,
          Event.Create subBlk.info.pixelType subBlk.info.physicalSize.w
            subBlk.info.physicalSize.h
            ((subBlk.info.physicalSize.w * ctx.GetBytesPerPel subBlk.info.pixelType) %
              UINT32_MOD)],
        result := Outcome.returned (CBitmapData.Create subBlk.data subBlk.info.pixelType
          subBlk.info.physicalSize.w subBlk.info.physicalSize.h
          ((subBlk.info.physicalSize.w * ctx.GetBytesPerPel subBlk.info.pixelType) %
            UINT32_MOD)) } := by
  simp only [CreateBitmapFromSubBlock_Uncompressed, ISubBlock.size, ISubBlock.GetSubBlockInfo]
  rw [if_neg h, if_neg]
  simpa using hc

/-- Uncompressed path, passing size check, with byte-order conversion. -/
theorem uncompressed_of_le_convert (ctx : Context) (subBlk : ISubBlock)
    (h : ¬ subBlk.data.length <
      ((subBlk.info.physicalSize.w * ctx.GetBytesPerPel subBlk.info.pixelType) % UINT32_MOD *
        subBlk.info.physicalSize.h) % SIZE_MOD)
    (hc : ctx.LIBCZI_ISBIGENDIANHOST = true ∧
      ctx.IsPixelTypeEndianessAgnostic subBlk.info.pixelType = false) :
    CreateBitmapFromSubBlock_Uncompressed ctx subBlk =
      { trace := [Event.GetRawData,
          Event.Create subBlk.info.pixelType subBlk.info.physicalSize.w
            subBlk.info.physicalSize.h
            ((subBlk.info.physicalSize.w * ctx.GetBytesPerPel subBlk.info.pixelType) %
              UINT32_MOD),
          Event.ConvertToBigEndian (CBitmapData.Create subBlk.data subBlk.info.pixelType
            subBlk.info.physicalSize.w subBlk.info.physicalSize.h
            ((subBlk.info.physicalSize.w * ctx.GetBytesPerPel subBlk.info.pixelType) %
              UINT32_MOD))],
        result := Outcome.returned (ctx.ConvertToBigEndian
          (CBitmapData.Create subBlk.data subBlk.info.pixelType
            subBlk.info.physicalSize.w subBlk.info.physicalSize.h
            ((subBlk.info.physicalSize.w * ctx.GetBytesPerPel subBlk.info.pixelType) %
              UINT32_MOD))) } := by
  simp only [CreateBitmapFromSubBlock_Uncompressed, ISubBlock.size, ISubBlock.GetSubBlockInfo]
  rw [if_neg h, if_pos]
  simpa using hc

/-- The dispatcher on an `UnCompressed` tag is the Uncompressed path. -/
theorem dispatch_uncompressed (ctx : Context) (subBlk : ISubBlock)
    (hmode : subBlk.info.mode = CompressionMode.UnCompressed) :
    CreateBitmapFromSubBlock ctx subBlk = CreateBitmapFromSubBlock_Uncompressed ctx subBlk := by
  simp [CreateBitmapFromSubBlock, ISubBlock.GetSubBlockInfo, SubBlockInfo.GetCompressionMode,
    hmode]

/-- The dispatcher on a `JpgXr` tag is the JpgXr path. -/
theorem dispatch_jpgxr (ctx : Context) (subBlk : ISubBlock)
    (hmode : subBlk.info.mode = CompressionMode.JpgXr) :
    CreateBitmapFromSubBlock ctx subBlk = CreateBitmapFromSubBlock_JpgXr ctx subBlk := by
  simp [CreateBitmapFromSubBlock, ISubBlock.GetSubBlockInfo, SubBlockInfo.GetCompressionMode,
    hmode]

/-- The Uncompressed path either throws the insufficient-size exception or
returns a bitmap. -/
theorem uncompressed_result_cases (ctx : Context) (subBlk : ISubBlock) :
    (CreateBitmapFromSubBlock_Uncompressed ctx subBlk).result = Outcome.thrown InsufficientData ∨
      ∃ b, (CreateBitmapFromSubBlock_Uncompressed ctx subBlk).result = Outcome.returned b := by
  by_cases h : subBlk.data.length <
      ((subBlk.info.physicalSize.w * ctx.GetBytesPerPel subBlk.info.pixelType) % UINT32_MOD *
        subBlk.info.physicalSize.h) % SIZE_MOD
  · left; rw [uncompressed_of_gt ctx subBlk h]
  · right
    by_cases hc : ctx.LIBCZI_ISBIGENDIANHOST = true ∧
        ctx.IsPixelTypeEndianessAgnostic subBlk.info.pixelType = false
    · rw [uncompressed_of_le_convert ctx subBlk h hc]; exact ⟨_, rfl⟩
    · rw [uncompressed_of_le_direct ctx subBlk h hc]; exact ⟨_, rfl⟩

/-- Every offset the magic comparison reads is recorded in the trace of the
JpgXr path. -/
theorem jpgxr_reads_mem (ctx : Context) (subBlk : ISubBlock) (i : Nat)
    (hi : i ∈ (memcmp subBlk.ptr (fun i => jpgxr_header_magic.getD i 0) 4).2) :
    Event.read i ∈ (CreateBitmapFromSubBlock_JpgXr ctx subBlk).trace := by
  have hpre : Event.read i ∈
      [Event.GetDecoder ImageDecoderType.JPXR_JxrLib, Event.DangerousGetRawData] ++
        (memcmp subBlk.ptr (fun i => jpgxr_header_magic.getD i 0) 4).2.map Event.read :=
    List.mem_append_right _ (List.mem_map_of_mem _ hi)
  unfold CreateBitmapFromSubBlock_JpgXr
  simp only
  split_ifs <;> exact List.mem_append_left _ hpre

/-- The bytewise comparison yields zero exactly when the compared ranges agree. -/
theorem memcmpFrom_eq_zero_iff (lhs rhs : Nat → Nat) (n i : Nat) :
    (memcmpFrom lhs rhs i n).1 = 0 ↔ ∀ k, k < n → lhs (i + k) = rhs (i + k) := by
  induction n generalizing i with
  | zero => simp [memcmpFrom]
  | succ n ih =>
    unfold memcmpFrom
    by_cases h : lhs i = rhs i
    · rw [if_pos h]
      simp only
      rw [ih (i + 1)]
      constructor
      · intro hk k hlt
        cases k with
        | zero => simpa using h
        | succ k =>
          have := hk k (by omega)
          rwa [Nat.add_assoc, Nat.add_comm 1 k] at this
      · intro hk k hlt
        have := hk (k + 1) (by omega)
        rwa [Nat.add_assoc, Nat.add_comm 1 k]
    · rw [if_neg h]
      simp only
      constructor
      · intro h0
        exact absurd (by omega) h
      · intro hk
        exact absurd (by simpa using hk 0 (by omega)) h

/-- The magic comparison of line 33 yields zero exactly when the four bytes at the
payload pointer are the magic sequence. -/
theorem memcmp_magic_eq_zero_iff (subBlk : ISubBlock) :
    (memcmp subBlk.ptr (fun i => jpgxr_header_magic.getD i 0) 4).1 = 0 ↔
      subBlk.firstBytes 4 = jpgxr_header_magic := by
  unfold memcmp
  rw [memcmpFrom_eq_zero_iff]
  have hf : subBlk.firstBytes 4 = [subBlk.ptr 0, subBlk.ptr 1, subBlk.ptr 2, subBlk.ptr 3] := rfl
  rw [hf]
  constructor
  · intro h
    have h0 := h 0 (by omega)
    have h1 := h 1 (by omega)
    have h2 := h 2 (by omega)
    have h3 := h 3 (by omega)
    simp [jpgxr_header_magic] at h0 h1 h2 h3 ⊢
    exact ⟨h0, h1, h2, h3⟩
  · intro h k hk
    simp [jpgxr_header_magic] at h
    obtain ⟨h0, h1, h2, h3⟩ := h
    have hcases : k = 0 ∨ k = 1 ∨ k = 2 ∨ k = 3 := by omega
    rcases hcases with rfl | rfl | rfl | rfl <;> simp [jpgxr_header_magic, *]

/-- Inside the payload the raw pointer reads the payload. -/
theorem ptr_of_lt (subBlk : ISubBlock) (i : Nat) (hi : i < subBlk.data.length) :
    subBlk.ptr i = subBlk.data[i] := by
  unfold ISubBlock.ptr
  rw [List.getElem?_eq_getElem hi]

/-- For a payload of at least `n` bytes the first `n` bytes at the payload pointer
are the first `n` payload bytes. -/
theorem firstBytes_eq_take (subBlk : ISubBlock) (n : Nat) (hn : n ≤ subBlk.data.length) :
    subBlk.firstBytes n = subBlk.data.take n := by
  apply List.ext_getElem
  · simp [ISubBlock.firstBytes, hn]
  · intro i h1 h2
    have hi : i < n := by simpa [ISubBlock.firstBytes] using h1
    simp [ISubBlock.firstBytes, ptr_of_lt subBlk i (by omega)]

/-- JpgXr path when the heuristic of lines 33-36 fires: the Uncompressed path runs
after the decoder lookup, the raw-data access and the magic comparison. -/
theorem jpgxr_redirect (ctx : Context) (subBlk : ISubBlock)
    (hmagic : subBlk.firstBytes 4 ≠ jpgxr_header_magic)
    (hsize : subBlk.data.length = (subBlk.info.physicalSize.h * subBlk.info.physicalSize.w *
      ctx.GetBytesPerPel subBlk.info.pixelType) % SIZE_MOD) :
    CreateBitmapFromSubBlock_JpgXr ctx subBlk =
      { trace := [Event.GetDecoder ImageDecoderType.JPXR_JxrLib, Event.DangerousGetRawData] ++
          (memcmp subBlk.ptr (fun i => jpgxr_header_magic.getD i 0) 4).2.map Event.read ++
          (CreateBitmapFromSubBlock_Uncompressed ctx subBlk).trace,
        result := (CreateBitmapFromSubBlock_Uncompressed ctx subBlk).result } := by
  have hc : (memcmp subBlk.ptr (fun i => jpgxr_header_magic.getD i 0) 4).1 ≠ 0 :=
    fun h => hmagic ((memcmp_magic_eq_zero_iff subBlk).1 h)
  unfold CreateBitmapFromSubBlock_JpgXr
  simp only [ISubBlock.size, ISubBlock.GetSubBlockInfo]
  rw [if_pos ⟨hc, hsize⟩]

/-- JpgXr path when the heuristic of lines 33-36 does not fire: the decoder runs on
the raw payload and its outcome is the outcome of the call. -/
theorem jpgxr_decode (ctx : Context) (subBlk : ISubBlock)
    (h : subBlk.firstBytes 4 = jpgxr_header_magic ∨
      subBlk.data.length ≠ (subBlk.info.physicalSize.h * subBlk.info.physicalSize.w *
        ctx.GetBytesPerPel subBlk.info.pixelType) % SIZE_MOD) :
    CreateBitmapFromSubBlock_JpgXr ctx subBlk =
      { trace := [Event.GetDecoder ImageDecoderType.JPXR_JxrLib, Event.DangerousGetRawData] ++
          (memcmp subBlk.ptr (fun i => jpgxr_header_magic.getD i 0) 4).2.map Event.read ++
          [Event.Decode ImageDecoderType.JPXR_JxrLib subBlk.data subBlk.data.length
            subBlk.info.pixelType subBlk.info.physicalSize.w subBlk.info.physicalSize.h],
        result := ctx.Decode ImageDecoderType.JPXR_JxrLib subBlk.data subBlk.data.length
          subBlk.info.pixelType subBlk.info.physicalSize.w subBlk.info.physicalSize.h } := by
  unfold CreateBitmapFromSubBlock_JpgXr
  simp only [ISubBlock.size, ISubBlock.GetSubBlockInfo]
  rw [if_neg]
  rintro ⟨hc, hs⟩
  rcases h with h | h
  · exact hc ((memcmp_magic_eq_zero_iff subBlk).2 h)
  · exact h hs

/-- JpgXr path when the geometry product fits a `size_t`: a payload that starts
with the magic, or whose length differs from `width * height * bytesPerPixel`,
goes to the decoder and the decoder outcome is returned. -/
theorem jpgxr_decode_of_fits (ctx : Context) (subBlk : ISubBlock)
    (hfit : subBlk.info.physicalSize.w * subBlk.info.physicalSize.h *
      ctx.GetBytesPerPel subBlk.info.pixelType < SIZE_MOD)
    (h : subBlk.data.take 4 = jpgxr_header_magic ∨
      subBlk.data.length ≠ subBlk.info.physicalSize.w * subBlk.info.physicalSize.h *
        ctx.GetBytesPerPel subBlk.info.pixelType) :
    (CreateBitmapFromSubBlock_JpgXr ctx subBlk).result =
      ctx.Decode ImageDecoderType.JPXR_JxrLib subBlk.data subBlk.data.length
        subBlk.info.pixelType subBlk.info.physicalSize.w subBlk.info.physicalSize.h := by
  rw [jpgxr_decode ctx subBlk]
  rcases h with h | h
  · left
    have hlen : 4 ≤ subBlk.data.length := by
      have := congrArg List.length h
      simp [jpgxr_header_magic] at this
      omega
    rw [firstBytes_eq_take subBlk 4 hlen, h]
  · right
    rw [Nat.mul_comm subBlk.info.physicalSize.h, Nat.mod_eq_of_lt hfit]
    exact h

/-- The Uncompressed path performs only the raw-data access, the bitmap
construction and, possibly, the byte-order conversion. -/
theorem uncompressed_trace_mem (ctx : Context) (subBlk : ISubBlock) (e : Event)
    (he : e ∈ (CreateBitmapFromSubBlock_Uncompressed ctx subBlk).trace) :
    e = Event.GetRawData ∨ (∃ p w h s, e = Event.Create p w h s) ∨
      ∃ b, e = Event.ConvertToBigEndian b := by
  by_cases h : subBlk.data.length <
      ((subBlk.info.physicalSize.w * ctx.GetBytesPerPel subBlk.info.pixelType) % UINT32_MOD *
        subBlk.info.physicalSize.h) % SIZE_MOD
  · rw [uncompressed_of_gt ctx subBlk h] at he
    simp only [List.mem_singleton] at he
    exact Or.inl he
  · by_cases hc : ctx.LIBCZI_ISBIGENDIANHOST = true ∧
        ctx.IsPixelTypeEndianessAgnostic subBlk.info.pixelType = false
    · rw [uncompressed_of_le_convert ctx subBlk h hc] at he
      simp only [List.mem_cons, List.mem_singleton, List.not_mem_nil, or_false] at he
      rcases he with he | he | he
      · exact Or.inl he
      · exact Or.inr (Or.inl ⟨_, _, _, _, he⟩)
      · exact Or.inr (Or.inr ⟨_, he⟩)
    · rw [uncompressed_of_le_direct ctx subBlk h hc] at he
      simp only [List.mem_cons, List.mem_singleton, List.not_mem_nil, or_false] at he
      rcases he with he | he
      · exact Or.inl he
      · exact Or.inr (Or.inl ⟨_, _, _, _, he⟩)

/-- A bitmap returned by the Uncompressed path is the bitmap built over the
payload with the 32-bit stride, or its byte-order conversion, and the size check
passed. -/
theorem uncompressed_returned (ctx : Context) (subBlk : ISubBlock) (b : BitmapData)
    (hret : (CreateBitmapFromSubBlock_Uncompressed ctx subBlk).result = Outcome.returned b) :
    ¬ subBlk.data.length <
        ((subBlk.info.physicalSize.w * ctx.GetBytesPerPel subBlk.info.pixelType) % UINT32_MOD *
          subBlk.info.physicalSize.h) % SIZE_MOD ∧
      (b = CBitmapData.Create subBlk.data subBlk.info.pixelType subBlk.info.physicalSize.w
          subBlk.info.physicalSize.h
          ((subBlk.info.physicalSize.w * ctx.GetBytesPerPel subBlk.info.pixelType) %
            UINT32_MOD) ∨
        (ctx.LIBCZI_ISBIGENDIANHOST = true ∧
          ctx.IsPixelTypeEndianessAgnostic subBlk.info.pixelType = false ∧
          b = ctx.ConvertToBigEndian (CBitmapData.Create subBlk.data subBlk.info.pixelType
            subBlk.info.physicalSize.w subBlk.info.physicalSize.h
            ((subBlk.info.physicalSize.w * ctx.GetBytesPerPel subBlk.info.pixelType) %
              UINT32_MOD)))) := by
  by_cases h : subBlk.data.length <
      ((subBlk.info.physicalSize.w * ctx.GetBytesPerPel subBlk.info.pixelType) % UINT32_MOD *
        subBlk.info.physicalSize.h) % SIZE_MOD
  · rw [uncompressed_of_gt ctx subBlk h] at hret
    cases hret
  · refine ⟨h, ?_⟩
    by_cases hc : ctx.LIBCZI_ISBIGENDIANHOST = true ∧
        ctx.IsPixelTypeEndianessAgnostic subBlk.info.pixelType = false
    · rw [uncompressed_of_le_convert ctx subBlk h hc] at hret
      injection hret with hret
      exact Or.inr ⟨hc.1, hc.2, hret.symm⟩
    · rw [uncompressed_of_le_direct ctx subBlk h hc] at hret
      injection hret with hret
      exact Or.inl hret.symm

/-- When the size check passes, the construction of the bitmap is recorded in the
trace of the Uncompressed path. -/
theorem uncompressed_create_mem (ctx : Context) (subBlk : ISubBlock)
    (h : ¬ subBlk.data.length <
      ((subBlk.info.physicalSize.w * ctx.GetBytesPerPel subBlk.info.pixelType) % UINT32_MOD *
        subBlk.info.physicalSize.h) % SIZE_MOD) :
    Event.Create subBlk.info.pixelType subBlk.info.physicalSize.w subBlk.info.physicalSize.h
        ((subBlk.info.physicalSize.w * ctx.GetBytesPerPel subBlk.info.pixelType) % UINT32_MOD) ∈
      (CreateBitmapFromSubBlock_Uncompressed ctx subBlk).trace := by
  by_cases hc : ctx.LIBCZI_ISBIGENDIANHOST = true ∧
      ctx.IsPixelTypeEndianessAgnostic subBlk.info.pixelType = false
  · rw [uncompressed_of_le_convert ctx subBlk h hc]
    simp
  · rw [uncompressed_of_le_direct ctx subBlk h hc]
    simp

/-! ## C1 -/

/-- C1. For every well-formed sub-block tagged `UnCompressed` whose
`width * bytesPerPixel` fits 32 bits, `CreateBitmapFromSubBlock` throws the
insufficient-size exception exactly when `width * bytesPerPixel * height` exceeds
the payload length, and returns a bitmap otherwise. -/
theorem C1_uncompressed_insufficient_iff (ctx : Context) (subBlk : ISubBlock)
    (hwf : subBlk.WellFormed)
    (hmode : subBlk.info.mode = CompressionMode.UnCompressed)
    (hfit : subBlk.info.physicalSize.w * ctx.GetBytesPerPel subBlk.info.pixelType < UINT32_MOD) :
    ((CreateBitmapFromSubBlock ctx subBlk).result = Outcome.thrown InsufficientData ↔
      subBlk.info.physicalSize.w * ctx.GetBytesPerPel subBlk.info.pixelType *
        subBlk.info.physicalSize.h > subBlk.data.length) ∧
    (¬ (subBlk.info.physicalSize.w * ctx.GetBytesPerPel subBlk.info.pixelType *
        subBlk.info.physicalSize.h > subBlk.data.length) →
      ∃ b, (CreateBitmapFromSubBlock ctx subBlk).result = Outcome.returned b) := by
  rw [dispatch_uncompressed ctx subBlk hmode]
  have hs : ((subBlk.info.physicalSize.w * ctx.GetBytesPerPel subBlk.info.pixelType) %
      UINT32_MOD * subBlk.info.physicalSize.h) % SIZE_MOD =
      subBlk.info.physicalSize.w * ctx.GetBytesPerPel subBlk.info.pixelType *
        subBlk.info.physicalSize.h := by
    rw [stride_mul_mod _ _ hwf.2.1, Nat.mod_eq_of_lt hfit]
  by_cases h : subBlk.data.length <
      subBlk.info.physicalSize.w * ctx.GetBytesPerPel subBlk.info.pixelType *
        subBlk.info.physicalSize.h
  · have h2 := uncompressed_of_gt ctx subBlk (by rw [hs]; exact h)
    refine ⟨⟨fun _ => h, fun _ => by rw [h2]⟩, fun hn => absurd h hn⟩
  · have h2 : ∃ b, (CreateBitmapFromSubBlock_Uncompressed ctx subBlk).result =
        Outcome.returned b := by
      by_cases hc : ctx.LIBCZI_ISBIGENDIANHOST = true ∧
          ctx.IsPixelTypeEndianessAgnostic subBlk.info.pixelType = false
      · rw [uncompressed_of_le_convert ctx subBlk (by rw [hs]; exact h) hc]; exact ⟨_, rfl⟩
      · rw [uncompressed_of_le_direct ctx subBlk (by rw [hs]; exact h) hc]; exact ⟨_, rfl⟩
    refine ⟨⟨fun ht => ?_, fun hgt => absurd hgt h⟩, fun _ => h2⟩
    obtain ⟨b, hb⟩ := h2
    rw [hb] at ht
    cases ht

/-- Witness for C1: width 4, height 2, 1 byte per pixel; the 8-byte payload is
accepted and the 7-byte payload is rejected. -/
theorem C1_uncompressed_insufficient_iff_witness :
    (sampleSubBlock CompressionMode.UnCompressed 0 4 2 [1, 2, 3, 4, 5, 6, 7, 8]).WellFormed ∧
    4 * (sampleContext false).GetBytesPerPel 0 < UINT32_MOD ∧
    (∃ b, (CreateBitmapFromSubBlock (sampleContext false)
      (sampleSubBlock CompressionMode.UnCompressed 0 4 2 [1, 2, 3, 4, 5, 6, 7, 8])).result =
        Outcome.returned b) ∧
    (CreateBitmapFromSubBlock (sampleContext false)
      (sampleSubBlock CompressionMode.UnCompressed 0 4 2 [1, 2, 3, 4, 5, 6, 7])).result =
        Outcome.thrown InsufficientData :=
  ⟨⟨by decide, by decide, by decide⟩, by decide,
    (C1_uncompressed_insufficient_iff (sampleContext false)
      (sampleSubBlock CompressionMode.UnCompressed 0 4 2 [1, 2, 3, 4, 5, 6, 7, 8])
      ⟨by decide, by decide, by decide⟩ rfl (by decide)).2 (by decide),
    (C1_uncompressed_insufficient_iff (sampleContext false)
      (sampleSubBlock CompressionMode.UnCompressed 0 4 2 [1, 2, 3, 4, 5, 6, 7])
      ⟨by decide, by decide, by decide⟩ rfl (by decide)).1.2 (by decide)⟩

/-! ## C2 -/

/-- C2, evaluated. Width `0x80000001` with 2 bytes per pixel does not fit 32 bits
(the product is `2^32 + 2`), yet with height 1 and a 2-byte payload the sub-block
is accepted: the bitmap returned has the wrapped stride 2, far below
`width * bytesPerPixel`. -/
theorem C2_wrapped_stride_is_accepted :
    (sampleSubBlock CompressionMode.UnCompressed 1 0x80000001 1 [0, 0]).WellFormed ∧
    ¬ (0x80000001 * (sampleContext false).GetBytesPerPel 1 < UINT32_MOD) ∧
    CreateBitmapFromSubBlock (sampleContext false)
      (sampleSubBlock CompressionMode.UnCompressed 1 0x80000001 1 [0, 0]) =
      { trace := [Event.GetRawData, Event.Create 1 0x80000001 1 2],
        result := Outcome.returned
          { pixelType := 1, width := 0x80000001, height := 1, stride := 2, data := [0, 0] } } ∧
    ¬ (2 ≥ 0x80000001 * (sampleContext false).GetBytesPerPel 1) :=
  ⟨⟨by decide, by decide, by decide⟩, by decide, by decide, by decide⟩

/-! ## C3 -/

/-- C3, evaluated. On a `JpgXr` sub-block the magic comparison reads through the
payload pointer without consulting the payload size: with an empty payload it
reads offset 0, and with the 3-byte payload `49 49 BC` it reads offset 3. Both
offsets lie outside the payload, whatever the collaborators, the geometry and
the neighbouring memory are. -/
theorem C3_magic_check_reads_past_payload (ctx : Context) (pixelType : PixelType) (w h : Nat)
    (beyond : Nat → Nat) :
    (Event.read 0 ∈ (CreateBitmapFromSubBlock ctx
        { info := { mode := CompressionMode.JpgXr, pixelType := pixelType,
                    physicalSize := { w := w, h := h } },
          data := [], beyond := beyond }).trace ∧
      ¬ 0 < ([] : List Nat).length) ∧
    (Event.read 3 ∈ (CreateBitmapFromSubBlock ctx
        { info := { mode := CompressionMode.JpgXr, pixelType := pixelType,
                    physicalSize := { w := w, h := h } },
          data := [0x49, 0x49, 0xbc], beyond := beyond }).trace ∧
      ¬ 3 < ([0x49, 0x49, 0xbc] : List Nat).length) := by
  refine ⟨⟨?_, by decide⟩, ?_, by decide⟩
  · rw [dispatch_jpgxr _ _ rfl]
    apply jpgxr_reads_mem
    simp only [memcmp, memcmpFrom]
    split_ifs <;> simp
  · rw [dispatch_jpgxr _ _ rfl]
    apply jpgxr_reads_mem
    simp [memcmp, memcmpFrom, ISubBlock.ptr, jpgxr_header_magic]
    split_ifs <;> simp

/-! ## The redirect of lines 33-37 when the comparison stays inside the payload -/

/-- For every well-formed sub-block tagged `JpgXr` whose four bytes at the payload
pointer differ from the magic `49 49 BC 01` and whose payload length equals
`width * height * bytesPerPixel`, `CreateBitmapFromSubBlock` returns exactly the
outcome of the Uncompressed path on the same sub-block, and no decoder `Decode`
call occurs. -/
theorem jpgxr_redirect_of_size_eq (ctx : Context) (subBlk : ISubBlock)
    (hwf : subBlk.WellFormed)
    (hmode : subBlk.info.mode = CompressionMode.JpgXr)
    (hmagic : subBlk.firstBytes 4 ≠ jpgxr_header_magic)
    (hsize : subBlk.data.length = subBlk.info.physicalSize.w * subBlk.info.physicalSize.h *
      ctx.GetBytesPerPel subBlk.info.pixelType) :
    (CreateBitmapFromSubBlock ctx subBlk).result =
        (CreateBitmapFromSubBlock_Uncompressed ctx subBlk).result ∧
      ∀ t d s p w h, Event.Decode t d s p w h ∉ (CreateBitmapFromSubBlock ctx subBlk).trace := by
  have hs : subBlk.data.length = (subBlk.info.physicalSize.h * subBlk.info.physicalSize.w *
      ctx.GetBytesPerPel subBlk.info.pixelType) % SIZE_MOD := by
    rw [Nat.mul_comm subBlk.info.physicalSize.h, ← hsize, Nat.mod_eq_of_lt hwf.2.2]
  rw [dispatch_jpgxr ctx subBlk hmode, jpgxr_redirect ctx subBlk hmagic hs]
  refine ⟨rfl, ?_⟩
  intro t d s p w h hmem
  simp only [List.mem_append, List.mem_cons, List.mem_singleton, List.not_mem_nil, or_false,
    List.mem_map] at hmem
  rcases hmem with (((hmem | hmem) | ⟨i, _, hmem⟩)) | hmem
  · cases hmem
  · cases hmem
  · cases hmem
  · rcases uncompressed_trace_mem ctx subBlk _ hmem with h1 | ⟨_, _, _, _, h1⟩ | ⟨_, h1⟩ <;>
      cases h1

/-- The same for a payload of at least four bytes, the condition being on the first
four payload bytes. -/
theorem jpgxr_redirect_of_four_bytes (ctx : Context) (subBlk : ISubBlock)
    (hwf : subBlk.WellFormed)
    (hmode : subBlk.info.mode = CompressionMode.JpgXr)
    (hlen : 4 ≤ subBlk.data.length)
    (hmagic : subBlk.data.take 4 ≠ jpgxr_header_magic)
    (hsize : subBlk.data.length = subBlk.info.physicalSize.w * subBlk.info.physicalSize.h *
      ctx.GetBytesPerPel subBlk.info.pixelType) :
    (CreateBitmapFromSubBlock ctx subBlk).result =
        (CreateBitmapFromSubBlock_Uncompressed ctx subBlk).result ∧
      ∀ t d s p w h, Event.Decode t d s p w h ∉ (CreateBitmapFromSubBlock ctx subBlk).trace :=
  jpgxr_redirect_of_size_eq ctx subBlk hwf hmode
    (by rw [firstBytes_eq_take subBlk 4 hlen]; exact hmagic) hsize

/-! ## C4 -/

/-- C4, evaluated. A `JpgXr`-tagged 3x1 sub-block of 1 byte per pixel whose payload is
the three bytes `49 49 BC`, the byte that follows the payload in memory being `01`.
The payload is not the magic sequence and its length is exactly
`width * height * bytesPerPixel = 3`, yet the comparison of line 33 runs over four
bytes without a size test, reads offset 3 past the payload, finds the magic, and
the call goes to the decoder: one `Decode` call is made and its outcome is
returned, which is not the outcome of the Uncompressed path on the same
sub-block. -/
theorem C4_short_tile_reaches_decoder :
    truncatedMagicSubBlock.WellFormed ∧
    truncatedMagicSubBlock.info.mode = CompressionMode.JpgXr ∧
    truncatedMagicSubBlock.data = [0x49, 0x49, 0xbc] ∧
    truncatedMagicSubBlock.data.take 4 ≠ jpgxr_header_magic ∧
    truncatedMagicSubBlock.data.length =
      truncatedMagicSubBlock.info.physicalSize.w * truncatedMagicSubBlock.info.physicalSize.h *
        (sampleContext false).GetBytesPerPel truncatedMagicSubBlock.info.pixelType ∧
    CreateBitmapFromSubBlock (sampleContext false) truncatedMagicSubBlock =
      { trace := [Event.GetDecoder ImageDecoderType.JPXR_JxrLib, Event.DangerousGetRawData,
          Event.read 0, Event.read 1, Event.read 2, Event.read 3,
          Event.Decode ImageDecoderType.JPXR_JxrLib [0x49, 0x49, 0xbc] 3 0 3 1],
        result := sampleDecode ImageDecoderType.JPXR_JxrLib [0x49, 0x49, 0xbc] 3 0 3 1 } ∧
    (CreateBitmapFromSubBlock_Uncompressed (sampleContext false) truncatedMagicSubBlock).result =
      Outcome.returned
        { pixelType := 0, width := 3, height := 1, stride := 3, data := [0x49, 0x49, 0xbc] } ∧
    (CreateBitmapFromSubBlock (sampleContext false) truncatedMagicSubBlock).result ≠
      (CreateBitmapFromSubBlock_Uncompressed (sampleContext false)
        truncatedMagicSubBlock).result :=
  ⟨⟨by decide, by decide, by decide⟩, rfl, rfl, by decide, by decide, by decide, by decide,
    by decide⟩

/-! ## C5 -/

/-- C5, evaluated. A `JpgXr` sub-block with width `2^31 + 2^16 + 1`, height
`2^31 - 2^16 + 1`, 4 bytes per pixel and the 4-byte payload `00 00 00 00`: the
payload length 4 differs from `width * height * bytesPerPixel = 2^64 + 4`, yet the
`size_t` product of lines 34-36 wraps to 4, the heuristic fires, no `Decode` call
is made and the call throws the insufficient-size exception, although the decoder
would have returned a bitmap for these arguments. -/
theorem C5_wrapped_size_product_skips_decoder :
    (sampleSubBlock CompressionMode.JpgXr 2 2147549185 2147418113 [0, 0, 0, 0]).WellFormed ∧
    2147549185 * 2147418113 * (sampleContext false).GetBytesPerPel 2 = 2 ^ 64 + 4 ∧
    [0, 0, 0, 0].length ≠ 2147549185 * 2147418113 * (sampleContext false).GetBytesPerPel 2 ∧
    CreateBitmapFromSubBlock (sampleContext false)
        (sampleSubBlock CompressionMode.JpgXr 2 2147549185 2147418113 [0, 0, 0, 0]) =
      { trace := [Event.GetDecoder ImageDecoderType.JPXR_JxrLib, Event.DangerousGetRawData,
          Event.read 0, Event.GetRawData],
        result := Outcome.thrown InsufficientData } ∧
    (sampleContext false).Decode ImageDecoderType.JPXR_JxrLib [0, 0, 0, 0] 4 2 2147549185
        2147418113 =
      Outcome.returned
        { pixelType := 100, width := 1, height := 1, stride := 1, data := [0, 0, 0, 0] } :=
  ⟨⟨by decide, by decide, by decide⟩, by decide, by decide, by decide, rfl⟩

/-! ## C6 -/

/-- C6. For every sub-block tagged `Zstd0` (respectively `Zstd1`), whatever its
payload and geometry, `CreateBitmapFromSubBlock` looks up the ZStd0 (respectively
ZStd1) decoder, takes the raw payload, calls `Decode` on (payload, size, declared
pixel type, declared width, declared height) and returns its outcome unchanged;
nothing else happens. -/
theorem C6_zstd_returns_decoder_outcome (ctx : Context) (subBlk : ISubBlock) :
    (subBlk.info.mode = CompressionMode.Zstd0 →
      CreateBitmapFromSubBlock ctx subBlk =
        { trace := [Event.GetDecoder ImageDecoderType.ZStd0, Event.DangerousGetRawData,
            Event.Decode ImageDecoderType.ZStd0 subBlk.data subBlk.data.length
              subBlk.info.pixelType subBlk.info.physicalSize.w subBlk.info.physicalSize.h],
          result := ctx.Decode ImageDecoderType.ZStd0 subBlk.data subBlk.data.length
            subBlk.info.pixelType subBlk.info.physicalSize.w subBlk.info.physicalSize.h }) ∧
    (subBlk.info.mode = CompressionMode.Zstd1 →
      CreateBitmapFromSubBlock ctx subBlk =
        { trace := [Event.GetDecoder ImageDecoderType.ZStd1, Event.DangerousGetRawData,
            Event.Decode ImageDecoderType.ZStd1 subBlk.data subBlk.data.length
              subBlk.info.pixelType subBlk.info.physicalSize.w subBlk.info.physicalSize.h],
          result := ctx.Decode ImageDecoderType.ZStd1 subBlk.data subBlk.data.length
            subBlk.info.pixelType subBlk.info.physicalSize.w subBlk.info.physicalSize.h }) := by
  constructor
  · intro hmode
    simp [CreateBitmapFromSubBlock, ISubBlock.GetSubBlockInfo, SubBlockInfo.GetCompressionMode,
      hmode, CreateBitmapFromSubBlock_ZStd0, ISubBlock.size]
  · intro hmode
    simp [CreateBitmapFromSubBlock, ISubBlock.GetSubBlockInfo, SubBlockInfo.GetCompressionMode,
      hmode, CreateBitmapFromSubBlock_ZStd1, ISubBlock.size]

/-- Witness for C6: a `Zstd0` sub-block whose payload has exactly
`width * height * bytesPerPixel` bytes and a `Zstd1` sub-block whose payload is
shorter than its geometry; both go to their decoder. -/
theorem C6_zstd_returns_decoder_outcome_witness :
    CreateBitmapFromSubBlock (sampleContext false)
        (sampleSubBlock CompressionMode.Zstd0 0 4 2 [1, 2, 3, 4, 5, 6, 7, 8]) =
      { trace := [Event.GetDecoder ImageDecoderType.ZStd0, Event.DangerousGetRawData,
          Event.Decode ImageDecoderType.ZStd0 [1, 2, 3, 4, 5, 6, 7, 8] 8 0 4 2],
        result := sampleDecode ImageDecoderType.ZStd0 [1, 2, 3, 4, 5, 6, 7, 8] 8 0 4 2 } ∧
    CreateBitmapFromSubBlock (sampleContext false)
        (sampleSubBlock CompressionMode.Zstd1 0 4 2 [1, 2, 3]) =
      { trace := [Event.GetDecoder ImageDecoderType.ZStd1, Event.DangerousGetRawData,
          Event.Decode ImageDecoderType.ZStd1 [1, 2, 3] 3 0 4 2],
        result := sampleDecode ImageDecoderType.ZStd1 [1, 2, 3] 3 0 4 2 } :=
  ⟨(C6_zstd_returns_decoder_outcome (sampleContext false)
      (sampleSubBlock CompressionMode.Zstd0 0 4 2 [1, 2, 3, 4, 5, 6, 7, 8])).1 rfl,
    (C6_zstd_returns_decoder_outcome (sampleContext false)
      (sampleSubBlock CompressionMode.Zstd1 0 4 2 [1, 2, 3])).2 rfl⟩

/-! ## C7 -/

/-- C7. For every sub-block whose compression tag is none of `UnCompressed`,
`JpgXr`, `Zstd0`, `Zstd1`, `CreateBitmapFromSubBlock` throws the exception of line
107 and performs no event at all: no decoder lookup, no `Decode` call, no raw-data
access and no bitmap construction. -/
theorem C7_unrecognized_tag_throws (ctx : Context) (subBlk : ISubBlock)
    (h1 : subBlk.info.mode ≠ CompressionMode.UnCompressed)
    (h2 : subBlk.info.mode ≠ CompressionMode.JpgXr)
    (h3 : subBlk.info.mode ≠ CompressionMode.Zstd0)
    (h4 : subBlk.info.mode ≠ CompressionMode.Zstd1) :
    CreateBitmapFromSubBlock ctx subBlk =
      { trace := [], result := Outcome.thrown UnsupportedCompressionMode } := by
  unfold CreateBitmapFromSubBlock
  cases hm : subBlk.info.mode with
  | UnCompressed => exact absurd hm h1
  | JpgXr => exact absurd hm h2
  | Zstd0 => exact absurd hm h3
  | Zstd1 => exact absurd hm h4
  | other tag => simp only [ISubBlock.GetSubBlockInfo, SubBlockInfo.GetCompressionMode, hm]

/-- Witness for C7: tag value 1 with an 8-byte payload. -/
theorem C7_unrecognized_tag_throws_witness :
    (sampleSubBlock (CompressionMode.other 1) 0 4 2 [1, 2, 3, 4, 5, 6, 7, 8]).info.mode ≠
      CompressionMode.UnCompressed ∧
    CreateBitmapFromSubBlock (sampleContext false)
        (sampleSubBlock (CompressionMode.other 1) 0 4 2 [1, 2, 3, 4, 5, 6, 7, 8]) =
      { trace := [], result := Outcome.thrown UnsupportedCompressionMode } :=
  ⟨by decide,
    C7_unrecognized_tag_throws (sampleContext false)
      (sampleSubBlock (CompressionMode.other 1) 0 4 2 [1, 2, 3, 4, 5, 6, 7, 8])
      (by decide) (by decide) (by decide) (by decide)⟩

/-! ## C8 -/

/-- C8. Whenever the Uncompressed path is taken, directly (tag `UnCompressed`) or
through the redirect of lines 33-37 (tag `JpgXr`, magic absent, size equal to the
`size_t` product), and a bitmap is returned, the bitmap `sb` built over the
payload satisfies `stride * height <= buffer length`, its buffer being the
payload, with no assumption that `width * bytesPerPixel` fits 32 bits; the
returned bitmap is `sb` itself, or the byte-order conversion of `sb` on a
big-endian host for a pixel type that is not byte-order agnostic. -/
theorem C8_built_bitmap_fits_payload (ctx : Context) (subBlk : ISubBlock)
    (hwf : subBlk.WellFormed)
    (hpath : subBlk.info.mode = CompressionMode.UnCompressed ∨
      (subBlk.info.mode = CompressionMode.JpgXr ∧
        subBlk.firstBytes 4 ≠ jpgxr_header_magic ∧
        subBlk.data.length = (subBlk.info.physicalSize.h * subBlk.info.physicalSize.w *
          ctx.GetBytesPerPel subBlk.info.pixelType) % SIZE_MOD))
    (b : BitmapData)
    (hret : (CreateBitmapFromSubBlock ctx subBlk).result = Outcome.returned b) :
    ∃ sb : BitmapData,
      Event.Create sb.pixelType sb.width sb.height sb.stride ∈
        (CreateBitmapFromSubBlock ctx subBlk).trace ∧
      sb.data = subBlk.data ∧ sb.stride * sb.height ≤ sb.data.length ∧
      (b = sb ∨ (ctx.LIBCZI_ISBIGENDIANHOST = true ∧
        ctx.IsPixelTypeEndianessAgnostic subBlk.info.pixelType = false ∧
        b = ctx.ConvertToBigEndian sb)) := by
  have hu : (CreateBitmapFromSubBlock_Uncompressed ctx subBlk).result = Outcome.returned b ∧
      ∀ e, e ∈ (CreateBitmapFromSubBlock_Uncompressed ctx subBlk).trace →
        e ∈ (CreateBitmapFromSubBlock ctx subBlk).trace := by
    rcases hpath with hmode | ⟨hmode, hmagic, hsize⟩
    · rw [dispatch_uncompressed ctx subBlk hmode] at hret ⊢
      exact ⟨hret, fun _ he => he⟩
    · rw [dispatch_jpgxr ctx subBlk hmode, jpgxr_redirect ctx subBlk hmagic hsize] at hret ⊢
      exact ⟨hret, fun _ he => List.mem_append_right _ he⟩
  obtain ⟨hle, hb⟩ := uncompressed_returned ctx subBlk b hu.1
  have hcreate := hu.2 _ (uncompressed_create_mem ctx subBlk hle)
  rw [stride_mul_mod _ _ hwf.2.1] at hle
  exact ⟨_, hcreate, rfl, Nat.le_of_not_lt hle, hb⟩

/-- Witness for C8: the wrapped-stride sub-block of C2 (width `0x80000001`, 2 bytes
per pixel, height 1, 2-byte payload); the bitmap built has stride 2 and
`2 * 1 <= 2`. -/
theorem C8_built_bitmap_fits_payload_witness :
    (sampleSubBlock CompressionMode.UnCompressed 1 0x80000001 1 [0, 0]).WellFormed ∧
    (CreateBitmapFromSubBlock (sampleContext false)
        (sampleSubBlock CompressionMode.UnCompressed 1 0x80000001 1 [0, 0])).result =
      Outcome.returned
        { pixelType := 1, width := 0x80000001, height := 1, stride := 2, data := [0, 0] } ∧
    ∃ sb : BitmapData,
      Event.Create sb.pixelType sb.width sb.height sb.stride ∈
        (CreateBitmapFromSubBlock (sampleContext false)
          (sampleSubBlock CompressionMode.UnCompressed 1 0x80000001 1 [0, 0])).trace ∧
      sb.data = [0, 0] ∧ sb.stride * sb.height ≤ sb.data.length ∧
      (({ pixelType := 1, width := 0x80000001, height := 1, stride := 2, data := [0, 0] } :
          BitmapData) = sb ∨
        ((sampleContext false).LIBCZI_ISBIGENDIANHOST = true ∧
          (sampleContext false).IsPixelTypeEndianessAgnostic 1 = false ∧
          ({ pixelType := 1, width := 0x80000001, height := 1, stride := 2, data := [0, 0] } :
            BitmapData) = (sampleContext false).ConvertToBigEndian sb)) :=
  ⟨⟨by decide, by decide, by decide⟩, by decide,
    C8_built_bitmap_fits_payload (sampleContext false)
      (sampleSubBlock CompressionMode.UnCompressed 1 0x80000001 1 [0, 0])
      ⟨by decide, by decide, by decide⟩ (Or.inl rfl) _ (by decide)⟩

/-! ## C9 -/

/-- C9. For every sub-block tagged `UnCompressed` whose `width * bytesPerPixel`
fits 32 bits and for which a bitmap is returned, the bitmap is constructed
(`CBitmapData::Create`) with the declared pixel type, width and height and with
stride exactly `width * bytesPerPixel`, over the payload; bytes-per-pixel of its
pixel type times its width is its stride; and the returned bitmap is this one, or
its byte-order conversion on a big-endian host for a pixel type that is not
byte-order agnostic. -/
theorem C9_uncompressed_bitmap_geometry (ctx : Context) (subBlk : ISubBlock)
    (hmode : subBlk.info.mode = CompressionMode.UnCompressed)
    (hfit : subBlk.info.physicalSize.w * ctx.GetBytesPerPel subBlk.info.pixelType < UINT32_MOD)
    (b : BitmapData)
    (hret : (CreateBitmapFromSubBlock ctx subBlk).result = Outcome.returned b) :
    ∃ sb : BitmapData,
      sb = { pixelType := subBlk.info.pixelType, width := subBlk.info.physicalSize.w,
             height := subBlk.info.physicalSize.h,
             stride := subBlk.info.physicalSize.w * ctx.GetBytesPerPel subBlk.info.pixelType,
             data := subBlk.data } ∧
      ctx.GetBytesPerPel sb.pixelType * sb.width = sb.stride ∧
      Event.Create sb.pixelType sb.width sb.height sb.stride ∈
        (CreateBitmapFromSubBlock ctx subBlk).trace ∧
      (b = sb ∨ (ctx.LIBCZI_ISBIGENDIANHOST = true ∧
        ctx.IsPixelTypeEndianessAgnostic subBlk.info.pixelType = false ∧
        b = ctx.ConvertToBigEndian sb)) := by
  rw [dispatch_uncompressed ctx subBlk hmode] at hret ⊢
  obtain ⟨hle, hb⟩ := uncompressed_returned ctx subBlk b hret
  refine ⟨_, rfl, Nat.mul_comm _ _, ?_, ?_⟩
  · by_cases hc : ctx.LIBCZI_ISBIGENDIANHOST = true ∧
        ctx.IsPixelTypeEndianessAgnostic subBlk.info.pixelType = false
    · rw [uncompressed_of_le_convert ctx subBlk hle hc, Nat.mod_eq_of_lt hfit]
      simp
    · rw [uncompressed_of_le_direct ctx subBlk hle hc, Nat.mod_eq_of_lt hfit]
      simp
  · rw [Nat.mod_eq_of_lt hfit] at hb
    exact hb

/-- Witness for C9: width 4, height 2, 1 byte per pixel, 8-byte payload; the
bitmap returned has stride 4. -/
theorem C9_uncompressed_bitmap_geometry_witness :
    4 * (sampleContext false).GetBytesPerPel 0 < UINT32_MOD ∧
    (CreateBitmapFromSubBlock (sampleContext false)
        (sampleSubBlock CompressionMode.UnCompressed 0 4 2 [1, 2, 3, 4, 5, 6, 7, 8])).result =
      Outcome.returned { pixelType := 0, width := 4, height := 2, stride := 4,
                         data := [1, 2, 3, 4, 5, 6, 7, 8] } ∧
    ∃ sb : BitmapData,
      sb = { pixelType := 0, width := 4, height := 2,
             stride := 4 * (sampleContext false).GetBytesPerPel 0,
             data := [1, 2, 3, 4, 5, 6, 7, 8] } ∧
      (sampleContext false).GetBytesPerPel sb.pixelType * sb.width = sb.stride ∧
      Event.Create sb.pixelType sb.width sb.height sb.stride ∈
        (CreateBitmapFromSubBlock (sampleContext false)
          (sampleSubBlock CompressionMode.UnCompressed 0 4 2 [1, 2, 3, 4, 5, 6, 7, 8])).trace ∧
      (({ pixelType := 0, width := 4, height := 2, stride := 4,
          data := [1, 2, 3, 4, 5, 6, 7, 8] } : BitmapData) = sb ∨
        ((sampleContext false).LIBCZI_ISBIGENDIANHOST = true ∧
          (sampleContext false).IsPixelTypeEndianessAgnostic 0 = false ∧
          ({ pixelType := 0, width := 4, height := 2, stride := 4,
             data := [1, 2, 3, 4, 5, 6, 7, 8] } : BitmapData) =
            (sampleContext false).ConvertToBigEndian sb)) :=
  ⟨by decide, by decide,
    C9_uncompressed_bitmap_geometry (sampleContext false)
      (sampleSubBlock CompressionMode.UnCompressed 0 4 2 [1, 2, 3, 4, 5, 6, 7, 8])
      rfl (by decide) _ (by decide)⟩

/-! ## C10 -/

/-- C10. On the Uncompressed path, whenever the size check passes (the call does
not throw the insufficient-size exception), with `sb` the bitmap built over the
payload: `ConvertToBigEndian` is called if and only if the host is big-endian and
the pixel type is not byte-order agnostic; in that case it is called on `sb` and
its result is returned; in every other case `sb` itself is returned, and its
bytes are the payload bytes. -/
theorem C10_byte_order_conversion_iff (ctx : Context) (subBlk : ISubBlock)
    (hok : (CreateBitmapFromSubBlock_Uncompressed ctx subBlk).result ≠
      Outcome.thrown InsufficientData) :
    ((∃ x, Event.ConvertToBigEndian x ∈ (CreateBitmapFromSubBlock_Uncompressed ctx subBlk).trace) ↔
      (ctx.LIBCZI_ISBIGENDIANHOST = true ∧
        ctx.IsPixelTypeEndianessAgnostic subBlk.info.pixelType = false)) ∧
    ((ctx.LIBCZI_ISBIGENDIANHOST = true ∧
        ctx.IsPixelTypeEndianessAgnostic subBlk.info.pixelType = false) →
      Event.ConvertToBigEndian (CBitmapData.Create subBlk.data subBlk.info.pixelType
          subBlk.info.physicalSize.w subBlk.info.physicalSize.h
          ((subBlk.info.physicalSize.w * ctx.GetBytesPerPel subBlk.info.pixelType) %
            UINT32_MOD)) ∈ (CreateBitmapFromSubBlock_Uncompressed ctx subBlk).trace ∧
      (CreateBitmapFromSubBlock_Uncompressed ctx subBlk).result =
        Outcome.returned (ctx.ConvertToBigEndian (CBitmapData.Create subBlk.data
          subBlk.info.pixelType subBlk.info.physicalSize.w subBlk.info.physicalSize.h
          ((subBlk.info.physicalSize.w * ctx.GetBytesPerPel subBlk.info.pixelType) %
            UINT32_MOD)))) ∧
    (¬ (ctx.LIBCZI_ISBIGENDIANHOST = true ∧
        ctx.IsPixelTypeEndianessAgnostic subBlk.info.pixelType = false) →
      (CreateBitmapFromSubBlock_Uncompressed ctx subBlk).result =
        Outcome.returned (CBitmapData.Create subBlk.data subBlk.info.pixelType
          subBlk.info.physicalSize.w subBlk.info.physicalSize.h
          ((subBlk.info.physicalSize.w * ctx.GetBytesPerPel subBlk.info.pixelType) %
            UINT32_MOD)) ∧
      (CBitmapData.Create subBlk.data subBlk.info.pixelType
          subBlk.info.physicalSize.w subBlk.info.physicalSize.h
          ((subBlk.info.physicalSize.w * ctx.GetBytesPerPel subBlk.info.pixelType) %
            UINT32_MOD)).data = subBlk.data) := by
  have hle : ¬ subBlk.data.length <
      ((subBlk.info.physicalSize.w * ctx.GetBytesPerPel subBlk.info.pixelType) % UINT32_MOD *
        subBlk.info.physicalSize.h) % SIZE_MOD := by
    intro h
    exact hok (by rw [uncompressed_of_gt ctx subBlk h])
  by_cases hc : ctx.LIBCZI_ISBIGENDIANHOST = true ∧
      ctx.IsPixelTypeEndianessAgnostic subBlk.info.pixelType = false
  · rw [uncompressed_of_le_convert ctx subBlk hle hc]
    refine ⟨⟨fun _ => hc, fun _ => ⟨_, List.mem_cons_of_mem _ (List.mem_cons_of_mem _
      (List.mem_singleton_self _))⟩⟩, fun _ => ⟨by simp, rfl⟩, fun hn => absurd hc hn⟩
  · rw [uncompressed_of_le_direct ctx subBlk hle hc]
    refine ⟨⟨fun hx => ?_, fun h => absurd h hc⟩, fun h => absurd h hc, fun _ => ⟨rfl, rfl⟩⟩
    obtain ⟨x, hx⟩ := hx
    simp at hx

/-- Witness for C10: a 2x1 sub-block of 2 bytes per pixel with a 4-byte payload.
On a big-endian host the conversion is called and its result returned; on a
little-endian host the bitmap over the payload is returned. -/
theorem C10_byte_order_conversion_iff_witness :
    (CreateBitmapFromSubBlock_Uncompressed (sampleContext true)
        (sampleSubBlock CompressionMode.UnCompressed 1 2 1 [1, 2, 3, 4])).result =
      Outcome.returned ((sampleContext true).ConvertToBigEndian
        { pixelType := 1, width := 2, height := 1, stride := 4, data := [1, 2, 3, 4] }) ∧
    (CreateBitmapFromSubBlock_Uncompressed (sampleContext false)
        (sampleSubBlock CompressionMode.UnCompressed 1 2 1 [1, 2, 3, 4])).result =
      Outcome.returned
        { pixelType := 1, width := 2, height := 1, stride := 4, data := [1, 2, 3, 4] } :=
  ⟨((C10_byte_order_conversion_iff (sampleContext true)
      (sampleSubBlock CompressionMode.UnCompressed 1 2 1 [1, 2, 3, 4]) (by decide)).2.1
        ⟨rfl, rfl⟩).2,
    ((C10_byte_order_conversion_iff (sampleContext false)
      (sampleSubBlock CompressionMode.UnCompressed 1 2 1 [1, 2, 3, 4]) (by decide)).2.2
        (by decide)).1⟩

/-! ## C11 -/

/-- C11, as stated, fails. A 4x2 sub-block of 1 byte per pixel with a 7-byte
payload raises the insufficient-size exception, a sub-block with tag value 1
raises the exception of the `default:` label, and the two exceptions have the
same dynamic type: their kinds are not distinct. -/
theorem C11_error_kinds_coincide :
    (CreateBitmapFromSubBlock (sampleContext false)
        (sampleSubBlock CompressionMode.UnCompressed 0 4 2 [1, 2, 3, 4, 5, 6, 7])).result =
      Outcome.thrown InsufficientData ∧
    (CreateBitmapFromSubBlock (sampleContext false)
        (sampleSubBlock (CompressionMode.other 1) 0 4 2 [1, 2, 3, 4, 5, 6, 7])).result =
      Outcome.thrown UnsupportedCompressionMode ∧
    ¬ (InsufficientData.type ≠ UnsupportedCompressionMode.type) :=
  ⟨by decide, by decide, by decide⟩

/-- C11, amended. Whenever an `UnCompressed` sub-block fails the size check of line
72 and another sub-block carries a tag outside `UnCompressed`, `JpgXr`, `Zstd0`,
`Zstd1`, both calls throw, the two exceptions have the same type
`std::logic_error`, and they differ in their `what()` text; the text is the only
thing that tells them apart. -/
theorem C11_errors_differ_only_in_message (ctx : Context) (subBlk subBlk2 : ISubBlock)
    (hmode : subBlk.info.mode = CompressionMode.UnCompressed)
    (hshort : subBlk.data.length <
      ((subBlk.info.physicalSize.w * ctx.GetBytesPerPel subBlk.info.pixelType) % UINT32_MOD *
        subBlk.info.physicalSize.h) % SIZE_MOD)
    (h1 : subBlk2.info.mode ≠ CompressionMode.UnCompressed)
    (h2 : subBlk2.info.mode ≠ CompressionMode.JpgXr)
    (h3 : subBlk2.info.mode ≠ CompressionMode.Zstd0)
    (h4 : subBlk2.info.mode ≠ CompressionMode.Zstd1) :
    ∃ e e' : Exception,
      (CreateBitmapFromSubBlock ctx subBlk).result = Outcome.thrown e ∧
      (CreateBitmapFromSubBlock ctx subBlk2).result = Outcome.thrown e' ∧
      e.type = "std::logic_error" ∧ e'.type = "std::logic_error" ∧
      e.what ≠ e'.what ∧ e ≠ e' := by
  refine ⟨InsufficientData, UnsupportedCompressionMode, ?_, ?_, rfl, rfl, by decide, by decide⟩
  · rw [dispatch_uncompressed ctx subBlk hmode, uncompressed_of_gt ctx subBlk hshort]
  · cases hm : subBlk2.info.mode with
    | UnCompressed => exact absurd hm h1
    | JpgXr => exact absurd hm h2
    | Zstd0 => exact absurd hm h3
    | Zstd1 => exact absurd hm h4
    | other tag =>
      simp only [CreateBitmapFromSubBlock, ISubBlock.GetSubBlockInfo,
        SubBlockInfo.GetCompressionMode, hm]

/-- Witness for the amended C11: the 7-byte 4x2 sub-block and a sub-block with tag
value 1. -/
theorem C11_errors_differ_only_in_message_witness :
    (sampleSubBlock CompressionMode.UnCompressed 0 4 2 [1, 2, 3, 4, 5, 6, 7]).data.length <
      ((4 * (sampleContext false).GetBytesPerPel 0) % UINT32_MOD * 2) % SIZE_MOD ∧
    ∃ e e' : Exception,
      (CreateBitmapFromSubBlock (sampleContext false)
        (sampleSubBlock CompressionMode.UnCompressed 0 4 2 [1, 2, 3, 4, 5, 6, 7])).result =
          Outcome.thrown e ∧
      (CreateBitmapFromSubBlock (sampleContext false)
        (sampleSubBlock (CompressionMode.other 1) 0 4 2 [1, 2, 3, 4, 5, 6, 7])).result =
          Outcome.thrown e' ∧
      e.type = "std::logic_error" ∧ e'.type = "std::logic_error" ∧
      e.what ≠ e'.what ∧ e ≠ e' :=
  ⟨by decide,
    C11_errors_differ_only_in_message (sampleContext false)
      (sampleSubBlock CompressionMode.UnCompressed 0 4 2 [1, 2, 3, 4, 5, 6, 7])
      (sampleSubBlock (CompressionMode.other 1) 0 4 2 [1, 2, 3, 4, 5, 6, 7])
      rfl (by decide) (by decide) (by decide) (by decide) (by decide)⟩

/-! ## C12 -/

/-- C12. For every sub-block tagged `UnCompressed` with width 0 or height 0, whatever
its payload (the empty one included), `CreateBitmapFromSubBlock` does not throw
the insufficient-size exception: it constructs a bitmap `sb` over the payload with
the declared width and height, of stride 0 when the width is 0, and returns `sb`,
or the byte-order conversion of `sb` on a big-endian host for a pixel type that is
not byte-order agnostic. -/
theorem C12_degenerate_geometry_passes (ctx : Context) (subBlk : ISubBlock)
    (hmode : subBlk.info.mode = CompressionMode.UnCompressed)
    (hzero : subBlk.info.physicalSize.w = 0 ∨ subBlk.info.physicalSize.h = 0) :
    (CreateBitmapFromSubBlock ctx subBlk).result ≠ Outcome.thrown InsufficientData ∧
    ∃ sb : BitmapData,
      sb.pixelType = subBlk.info.pixelType ∧
      sb.width = subBlk.info.physicalSize.w ∧ sb.height = subBlk.info.physicalSize.h ∧
      sb.data = subBlk.data ∧
      (subBlk.info.physicalSize.w = 0 → sb.stride = 0) ∧
      Event.Create sb.pixelType sb.width sb.height sb.stride ∈
        (CreateBitmapFromSubBlock ctx subBlk).trace ∧
      ((CreateBitmapFromSubBlock ctx subBlk).result = Outcome.returned sb ∨
        (ctx.LIBCZI_ISBIGENDIANHOST = true ∧
          ctx.IsPixelTypeEndianessAgnostic subBlk.info.pixelType = false ∧
          (CreateBitmapFromSubBlock ctx subBlk).result =
            Outcome.returned (ctx.ConvertToBigEndian sb))) := by
  have hle : ¬ subBlk.data.length <
      ((subBlk.info.physicalSize.w * ctx.GetBytesPerPel subBlk.info.pixelType) % UINT32_MOD *
        subBlk.info.physicalSize.h) % SIZE_MOD := by
    rcases hzero with hw | hh
    · rw [hw, Nat.zero_mul, Nat.zero_mod, Nat.zero_mul, Nat.zero_mod]
      exact Nat.not_lt_zero _
    · rw [hh, Nat.mul_zero, Nat.zero_mod]
      exact Nat.not_lt_zero _
  have hstride : subBlk.info.physicalSize.w = 0 →
      (subBlk.info.physicalSize.w * ctx.GetBytesPerPel subBlk.info.pixelType) % UINT32_MOD =
        0 := by
    intro hw
    rw [hw, Nat.zero_mul, Nat.zero_mod]
  rw [dispatch_uncompressed ctx subBlk hmode]
  have hcreate := uncompressed_create_mem ctx subBlk hle
  by_cases hc : ctx.LIBCZI_ISBIGENDIANHOST = true ∧
      ctx.IsPixelTypeEndianessAgnostic subBlk.info.pixelType = false
  · rw [uncompressed_of_le_convert ctx subBlk hle hc] at hcreate ⊢
    exact ⟨(fun h => by cases h), _, rfl, rfl, rfl, rfl, hstride, hcreate,
      Or.inr ⟨hc.1, hc.2, rfl⟩⟩
  · rw [uncompressed_of_le_direct ctx subBlk hle hc] at hcreate ⊢
    exact ⟨(fun h => by cases h), _, rfl, rfl, rfl, rfl, hstride, hcreate, Or.inl rfl⟩

/-- Witness for C12: a 0x5 sub-block of 2 bytes per pixel with an empty payload, and
a 3x0 sub-block of 2 bytes per pixel with a 1-byte payload. -/
theorem C12_degenerate_geometry_passes_witness :
    ((sampleSubBlock CompressionMode.UnCompressed 1 0 5 []).info.physicalSize.w = 0 ∨
      (sampleSubBlock CompressionMode.UnCompressed 1 0 5 []).info.physicalSize.h = 0) ∧
    (CreateBitmapFromSubBlock (sampleContext false)
        (sampleSubBlock CompressionMode.UnCompressed 1 0 5 [])).result ≠
      Outcome.thrown InsufficientData ∧
    (CreateBitmapFromSubBlock (sampleContext false)
        (sampleSubBlock CompressionMode.UnCompressed 1 0 5 [])).result =
      Outcome.returned { pixelType := 1, width := 0, height := 5, stride := 0, data := [] } ∧
    (CreateBitmapFromSubBlock (sampleContext false)
        (sampleSubBlock CompressionMode.UnCompressed 1 3 0 [9])).result ≠
      Outcome.thrown InsufficientData ∧
    (CreateBitmapFromSubBlock (sampleContext false)
        (sampleSubBlock CompressionMode.UnCompressed 1 3 0 [9])).result =
      Outcome.returned { pixelType := 1, width := 3, height := 0, stride := 6, data := [9] } :=
  ⟨Or.inl rfl,
    (C12_degenerate_geometry_passes (sampleContext false)
      (sampleSubBlock CompressionMode.UnCompressed 1 0 5 []) rfl (Or.inl rfl)).1,
    by decide,
    (C12_degenerate_geometry_passes (sampleContext false)
      (sampleSubBlock CompressionMode.UnCompressed 1 3 0 [9]) rfl (Or.inr rfl)).1,
    by decide⟩

/-! ## C13 -/

/-- C13. For every sub-block tagged `JpgXr` on which the heuristic of lines 33-36
fires (magic absent, payload length equal to the `size_t` product
`height * width * bytesPerPixel`), whose `width * bytesPerPixel` fits 32 bits and
whose `height * width * bytesPerPixel` fits 64 bits, the call does not throw the
insufficient-size exception, and the bitmap `sb` that the redirected Uncompressed
path constructs over the payload has `stride * height` exactly equal to the
payload length; `sb`, or its byte-order conversion, is what the call returns. -/
theorem C13_redirect_sizes_agree (ctx : Context) (subBlk : ISubBlock)
    (hmode : subBlk.info.mode = CompressionMode.JpgXr)
    (hmagic : subBlk.firstBytes 4 ≠ jpgxr_header_magic)
    (hsize : subBlk.data.length = (subBlk.info.physicalSize.h * subBlk.info.physicalSize.w *
      ctx.GetBytesPerPel subBlk.info.pixelType) % SIZE_MOD)
    (hfit32 : subBlk.info.physicalSize.w * ctx.GetBytesPerPel subBlk.info.pixelType <
      UINT32_MOD)
    (hfit64 : subBlk.info.physicalSize.h * subBlk.info.physicalSize.w *
      ctx.GetBytesPerPel subBlk.info.pixelType < SIZE_MOD) :
    (CreateBitmapFromSubBlock ctx subBlk).result ≠ Outcome.thrown InsufficientData ∧
    ∃ sb : BitmapData,
      Event.Create sb.pixelType sb.width sb.height sb.stride ∈
        (CreateBitmapFromSubBlock ctx subBlk).trace ∧
      sb.data = subBlk.data ∧
      sb.stride * sb.height = subBlk.data.length ∧
      ((CreateBitmapFromSubBlock ctx subBlk).result = Outcome.returned sb ∨
        (ctx.LIBCZI_ISBIGENDIANHOST = true ∧
          ctx.IsPixelTypeEndianessAgnostic subBlk.info.pixelType = false ∧
          (CreateBitmapFromSubBlock ctx subBlk).result =
            Outcome.returned (ctx.ConvertToBigEndian sb))) := by
  have hlen : subBlk.data.length =
      subBlk.info.physicalSize.w * ctx.GetBytesPerPel subBlk.info.pixelType *
        subBlk.info.physicalSize.h := by
    rw [hsize, Nat.mod_eq_of_lt hfit64, Nat.mul_assoc, Nat.mul_comm]
  have hprod : ((subBlk.info.physicalSize.w * ctx.GetBytesPerPel subBlk.info.pixelType) %
      UINT32_MOD * subBlk.info.physicalSize.h) % SIZE_MOD = subBlk.data.length := by
    rw [Nat.mod_eq_of_lt hfit32, ← hlen, Nat.mod_eq_of_lt]
    rw [hsize]
    exact Nat.mod_lt _ size_mod_pos
  have hle : ¬ subBlk.data.length <
      ((subBlk.info.physicalSize.w * ctx.GetBytesPerPel subBlk.info.pixelType) % UINT32_MOD *
        subBlk.info.physicalSize.h) % SIZE_MOD := by
    rw [hprod]
    exact Nat.lt_irrefl _
  have hsh : (subBlk.info.physicalSize.w * ctx.GetBytesPerPel subBlk.info.pixelType) %
      UINT32_MOD * subBlk.info.physicalSize.h = subBlk.data.length := by
    rw [Nat.mod_eq_of_lt hfit32, ← hlen]
  have hcreate := uncompressed_create_mem ctx subBlk hle
  rw [dispatch_jpgxr ctx subBlk hmode, jpgxr_redirect ctx subBlk hmagic hsize]
  by_cases hc : ctx.LIBCZI_ISBIGENDIANHOST = true ∧
      ctx.IsPixelTypeEndianessAgnostic subBlk.info.pixelType = false
  · rw [uncompressed_of_le_convert ctx subBlk hle hc] at hcreate ⊢
    exact ⟨(fun h => by cases h), _, List.mem_append_right _ hcreate, rfl, hsh,
      Or.inr ⟨hc.1, hc.2, rfl⟩⟩
  · rw [uncompressed_of_le_direct ctx subBlk hle hc] at hcreate ⊢
    exact ⟨(fun h => by cases h), _, List.mem_append_right _ hcreate, rfl, hsh, Or.inl rfl⟩

/-- Witness for C13: a `JpgXr`-tagged 4x2 sub-block of 1 byte per pixel whose 8-byte
payload does not start with the magic; the bitmap returned has stride 4 and
`4 * 2 = 8`. -/
theorem C13_redirect_sizes_agree_witness :
    (sampleSubBlock CompressionMode.JpgXr 0 4 2 [1, 2, 3, 4, 5, 6, 7, 8]).firstBytes 4 ≠
      jpgxr_header_magic ∧
    [1, 2, 3, 4, 5, 6, 7, 8].length =
      (2 * 4 * (sampleContext false).GetBytesPerPel 0) % SIZE_MOD ∧
    (CreateBitmapFromSubBlock (sampleContext false)
        (sampleSubBlock CompressionMode.JpgXr 0 4 2 [1, 2, 3, 4, 5, 6, 7, 8])).result =
      Outcome.returned { pixelType := 0, width := 4, height := 2, stride := 4,
                         data := [1, 2, 3, 4, 5, 6, 7, 8] } ∧
    (CreateBitmapFromSubBlock (sampleContext false)
        (sampleSubBlock CompressionMode.JpgXr 0 4 2 [1, 2, 3, 4, 5, 6, 7, 8])).result ≠
      Outcome.thrown InsufficientData :=
  ⟨by decide, by decide, by decide,
    (C13_redirect_sizes_agree (sampleContext false)
      (sampleSubBlock CompressionMode.JpgXr 0 4 2 [1, 2, 3, 4, 5, 6, 7, 8])
      rfl (by decide) (by decide) (by decide) (by decide)).1⟩

/-! ## C14 -/

/-- C14. The size check of the Uncompressed path is one-sided, the heuristic of the
JpgXr path is exact.
(1) If an `UnCompressed` sub-block is accepted (a bitmap is returned), every
sub-block with the same info record and a payload at least as long is accepted
too, and the bitmaps constructed for the two have the same pixel type, width,
height and stride, each over its own payload; both are returned as built, or both
are returned after byte-order conversion.
(2) A well-formed `JpgXr` sub-block without the magic whose payload is longer than
`width * height * bytesPerPixel` is not redirected: the run is the decoder lookup,
the raw-data access, the magic comparison and one `Decode` call, whose outcome is
returned. -/
theorem C14_one_sided_check_exact_heuristic (ctx : Context) :
    (∀ (subBlk longer : ISubBlock) (b : BitmapData),
      subBlk.info.mode = CompressionMode.UnCompressed →
      longer.info = subBlk.info →
      subBlk.data.length ≤ longer.data.length →
      (CreateBitmapFromSubBlock ctx subBlk).result = Outcome.returned b →
      ∃ sb sb2 : BitmapData,
        sb.data = subBlk.data ∧ sb2.data = longer.data ∧
        sb.pixelType = subBlk.info.pixelType ∧ sb.width = subBlk.info.physicalSize.w ∧
        sb.height = subBlk.info.physicalSize.h ∧
        sb2.pixelType = sb.pixelType ∧ sb2.width = sb.width ∧ sb2.height = sb.height ∧
        sb2.stride = sb.stride ∧
        ((b = sb ∧ (CreateBitmapFromSubBlock ctx longer).result = Outcome.returned sb2) ∨
          (ctx.LIBCZI_ISBIGENDIANHOST = true ∧
            ctx.IsPixelTypeEndianessAgnostic subBlk.info.pixelType = false ∧
            b = ctx.ConvertToBigEndian sb ∧
            (CreateBitmapFromSubBlock ctx longer).result =
              Outcome.returned (ctx.ConvertToBigEndian sb2)))) ∧
    (∀ subBlk : ISubBlock,
      subBlk.WellFormed →
      subBlk.info.mode = CompressionMode.JpgXr →
      subBlk.firstBytes 4 ≠ jpgxr_header_magic →
      subBlk.data.length > subBlk.info.physicalSize.w * subBlk.info.physicalSize.h *
        ctx.GetBytesPerPel subBlk.info.pixelType →
      CreateBitmapFromSubBlock ctx subBlk =
        { trace := [Event.GetDecoder ImageDecoderType.JPXR_JxrLib, Event.DangerousGetRawData] ++
            (memcmp subBlk.ptr (fun i => jpgxr_header_magic.getD i 0) 4).2.map Event.read ++
            [Event.Decode ImageDecoderType.JPXR_JxrLib subBlk.data subBlk.data.length
              subBlk.info.pixelType subBlk.info.physicalSize.w subBlk.info.physicalSize.h],
          result := ctx.Decode ImageDecoderType.JPXR_JxrLib subBlk.data subBlk.data.length
            subBlk.info.pixelType subBlk.info.physicalSize.w subBlk.info.physicalSize.h }) := by
  constructor
  · intro subBlk longer b hmode hinfo hlen hret
    have hmode2 : longer.info.mode = CompressionMode.UnCompressed := by rw [hinfo]; exact hmode
    rw [dispatch_uncompressed ctx subBlk hmode] at hret
    rw [dispatch_uncompressed ctx longer hmode2]
    obtain ⟨hle, hb⟩ := uncompressed_returned ctx subBlk b hret
    have hle2 : ¬ longer.data.length <
        ((longer.info.physicalSize.w * ctx.GetBytesPerPel longer.info.pixelType) % UINT32_MOD *
          longer.info.physicalSize.h) % SIZE_MOD := by
      rw [hinfo]
      omega
    by_cases hc : ctx.LIBCZI_ISBIGENDIANHOST = true ∧
        ctx.IsPixelTypeEndianessAgnostic subBlk.info.pixelType = false
    · have hc2 : ctx.LIBCZI_ISBIGENDIANHOST = true ∧
          ctx.IsPixelTypeEndianessAgnostic longer.info.pixelType = false := by
        rw [hinfo]; exact hc
      rw [uncompressed_of_le_convert ctx subBlk hle hc] at hret
      injection hret with hret
      rw [uncompressed_of_le_convert ctx longer hle2 hc2, hinfo]
      exact ⟨(CBitmapData.Create subBlk.data subBlk.info.pixelType subBlk.info.physicalSize.w
          subBlk.info.physicalSize.h
          ((subBlk.info.physicalSize.w * ctx.GetBytesPerPel subBlk.info.pixelType) %
            UINT32_MOD)),
        (CBitmapData.Create longer.data subBlk.info.pixelType subBlk.info.physicalSize.w
          subBlk.info.physicalSize.h
          ((subBlk.info.physicalSize.w * ctx.GetBytesPerPel subBlk.info.pixelType) %
            UINT32_MOD)),
        rfl, rfl, rfl, rfl, rfl, rfl, rfl, rfl, rfl, Or.inr ⟨hc.1, hc.2, hret.symm, rfl⟩⟩
    · have hc2 : ¬ (ctx.LIBCZI_ISBIGENDIANHOST = true ∧
          ctx.IsPixelTypeEndianessAgnostic longer.info.pixelType = false) := by
        rw [hinfo]; exact hc
      rw [uncompressed_of_le_direct ctx subBlk hle hc] at hret
      injection hret with hret
      rw [uncompressed_of_le_direct ctx longer hle2 hc2, hinfo]
      exact ⟨(CBitmapData.Create subBlk.data subBlk.info.pixelType subBlk.info.physicalSize.w
          subBlk.info.physicalSize.h
          ((subBlk.info.physicalSize.w * ctx.GetBytesPerPel subBlk.info.pixelType) %
            UINT32_MOD)),
        (CBitmapData.Create longer.data subBlk.info.pixelType subBlk.info.physicalSize.w
          subBlk.info.physicalSize.h
          ((subBlk.info.physicalSize.w * ctx.GetBytesPerPel subBlk.info.pixelType) %
            UINT32_MOD)),
        rfl, rfl, rfl, rfl, rfl, rfl, rfl, rfl, rfl, Or.inl ⟨hret.symm, rfl⟩⟩
  · intro subBlk hwf hmode hmagic hlong
    rw [dispatch_jpgxr ctx subBlk hmode]
    apply jpgxr_decode
    right
    have hfit : subBlk.info.physicalSize.w * subBlk.info.physicalSize.h *
        ctx.GetBytesPerPel subBlk.info.pixelType < SIZE_MOD := Nat.lt_trans hlong hwf.2.2
    rw [Nat.mul_comm subBlk.info.physicalSize.h, Nat.mod_eq_of_lt hfit]
    exact Nat.ne_of_gt hlong

/-- Witness for C14: a 4x2 sub-block of 1 byte per pixel is accepted with 8 bytes and
with 10 bytes, with the same geometry and stride 4; tagged `JpgXr` with 9 bytes
that do not start with the magic it goes to the decoder. -/
theorem C14_one_sided_check_exact_heuristic_witness :
    (CreateBitmapFromSubBlock (sampleContext false)
        (sampleSubBlock CompressionMode.UnCompressed 0 4 2 [1, 2, 3, 4, 5, 6, 7, 8])).result =
      Outcome.returned { pixelType := 0, width := 4, height := 2, stride := 4,
                         data := [1, 2, 3, 4, 5, 6, 7, 8] } ∧
    (∃ sb sb2 : BitmapData,
      sb.data = [1, 2, 3, 4, 5, 6, 7, 8] ∧ sb2.data = [1, 2, 3, 4, 5, 6, 7, 8, 9, 10] ∧
      sb.pixelType = 0 ∧ sb.width = 4 ∧ sb.height = 2 ∧
      sb2.pixelType = sb.pixelType ∧ sb2.width = sb.width ∧ sb2.height = sb.height ∧
      sb2.stride = sb.stride ∧
      ((({ pixelType := 0, width := 4, height := 2, stride := 4,
           data := [1, 2, 3, 4, 5, 6, 7, 8] } : BitmapData) = sb ∧
        (CreateBitmapFromSubBlock (sampleContext false)
          (sampleSubBlock CompressionMode.UnCompressed 0 4 2
            [1, 2, 3, 4, 5, 6, 7, 8, 9, 10])).result = Outcome.returned sb2) ∨
        ((sampleContext false).LIBCZI_ISBIGENDIANHOST = true ∧
          (sampleContext false).IsPixelTypeEndianessAgnostic 0 = false ∧
          ({ pixelType := 0, width := 4, height := 2, stride := 4,
             data := [1, 2, 3, 4, 5, 6, 7, 8] } : BitmapData) =
            (sampleContext false).ConvertToBigEndian sb ∧
          (CreateBitmapFromSubBlock (sampleContext false)
            (sampleSubBlock CompressionMode.UnCompressed 0 4 2
              [1, 2, 3, 4, 5, 6, 7, 8, 9, 10])).result =
            Outcome.returned ((sampleContext false).ConvertToBigEndian sb2)))) ∧
    (sampleSubBlock CompressionMode.JpgXr 0 4 2 [1, 2, 3, 4, 5, 6, 7, 8, 9]).firstBytes 4 ≠
      jpgxr_header_magic ∧
    (CreateBitmapFromSubBlock (sampleContext false)
        (sampleSubBlock CompressionMode.JpgXr 0 4 2 [1, 2, 3, 4, 5, 6, 7, 8, 9])).result =
      sampleDecode ImageDecoderType.JPXR_JxrLib [1, 2, 3, 4, 5, 6, 7, 8, 9] 9 0 4 2 :=
  ⟨by decide,
    (C14_one_sided_check_exact_heuristic (sampleContext false)).1
      (sampleSubBlock CompressionMode.UnCompressed 0 4 2 [1, 2, 3, 4, 5, 6, 7, 8])
      (sampleSubBlock CompressionMode.UnCompressed 0 4 2 [1, 2, 3, 4, 5, 6, 7, 8, 9, 10])
      _ rfl rfl (by decide) (by decide),
    by decide,
    congrArg Run.result ((C14_one_sided_check_exact_heuristic (sampleContext false)).2
      (sampleSubBlock CompressionMode.JpgXr 0 4 2 [1, 2, 3, 4, 5, 6, 7, 8, 9])
      ⟨by decide, by decide, by decide⟩ rfl (by decide) (by decide))⟩

end libCZI
